import Mathlib

/-!
Shallow embedding of the Maersk rate-extraction orchestration code:
the per-carrier Claude/agent rate-limit helpers, the login retry loop,
the extraction pipeline with its teardown and JSON result documents,
the two process entry points, and the booking data model.

Each definition mirrors one function of the JavaScript source; machine
time (Date.now()) is modelled as an integer number of milliseconds and
the external agent calls as environment-supplied outcomes.
-/

namespace MuvikRate

/-- Substring containment, mirroring JavaScript String.prototype.includes. -/
def jsIncludes (s sub : String) : Bool :=
  decide (sub.toList <:+: s.toList)

/-! ## Rate limiting helpers

Source: src/unnamed/part_003 `_claudeCallWithRateLimit` (lines 607-630) and
src/unnamed/part_002 `_agentCallWithRateLimit` (lines 416-439).  Both track
`this.lastClaudeCall` and use `this.claudeRateLimit = 60000`. -/

/-- Per-carrier rate-limit state: the `lastClaudeCall` field of the carrier. -/
structure RateLimitState where
  lastClaudeCall : Int
deriving DecidableEq, Repr

/-- The `claudeRateLimit` field: one minute between calls, in milliseconds. -/
def claudeRateLimit : Int := 60000

/-- Outcome of the external `agent.execute(taskDescription)` call in
part_003: either a result object carrying a message, or a thrown error
with a message. -/
inductive AgentOutcome where
  | success (message : String)
  | failure (errMsg : String)
deriving DecidableEq, Repr

/-- Outcome of the external `agent.run(taskDescription)` call in part_002:
its resolved value is unused by the caller, so only success or a thrown
error message matters. -/
inductive AgentRunOutcome where
  | success
  | failure (errMsg : String)
deriving DecidableEq, Repr

/-- The object `{message, rateLimited}` returned by both helpers. -/
structure CallOutcome where
  message : String
  rateLimited : Bool
deriving DecidableEq, Repr

/-- Result of one helper invocation: the returned value or rethrown error,
the carrier state afterwards, and whether the external agent was invoked. -/
structure CallResult where
  result : Except String CallOutcome
  state : RateLimitState
  invokedAgent : Bool
deriving Repr

/-- The rate-limit-signature test used in both helpers: the thrown error
message includes the substring 429 or the substring rate_limit. -/
def errorHasRateLimitSignature (e : String) : Bool :=
  jsIncludes e "429" || jsIncludes e "rate_limit"

/-- Embedding of `_claudeCallWithRateLimit` (src/unnamed/part_003 lines
607-630).  `now` is `Date.now()`; `agentExec` is the outcome the external
`this.agent.execute` call would have. -/
def claudeCallWithRateLimit (st : RateLimitState) (now : Int)
    (agentExec : AgentOutcome) (fallbackMessage : String) : CallResult :=
  let timeSinceLastCall := now - st.lastClaudeCall
  if timeSinceLastCall < claudeRateLimit then
    { result := .ok { message := fallbackMessage, rateLimited := true },
      state := st, invokedAgent := false }
  else
    match agentExec with
    | .success m =>
        { result := .ok { message := m, rateLimited := false },
          state := { lastClaudeCall := now }, invokedAgent := true }
    | .failure e =>
        if errorHasRateLimitSignature e then
          { result := .ok { message := fallbackMessage, rateLimited := true },
            state := { lastClaudeCall := now + claudeRateLimit },
            invokedAgent := true }
        else
          { result := .error e, state := { lastClaudeCall := now },
            invokedAgent := true }

/-- Embedding of `_agentCallWithRateLimit` (src/unnamed/part_002 lines
416-439).  Identical control flow; on success the helper returns the fixed
message instead of the agent result. -/
def agentCallWithRateLimit (st : RateLimitState) (now : Int)
    (agentRun : AgentRunOutcome) (fallbackMessage : String) : CallResult :=
  let timeSinceLastCall := now - st.lastClaudeCall
  if timeSinceLastCall < claudeRateLimit then
    { result := .ok { message := fallbackMessage, rateLimited := true },
      state := st, invokedAgent := false }
  else
    match agentRun with
    | .success =>
        { result := .ok { message := "Agent task completed successfully",
                          rateLimited := false },
          state := { lastClaudeCall := now }, invokedAgent := true }
    | .failure e =>
        if errorHasRateLimitSignature e then
          { result := .ok { message := fallbackMessage, rateLimited := true },
            state := { lastClaudeCall := now + claudeRateLimit },
            invokedAgent := true }
        else
          { result := .error e, state := { lastClaudeCall := now },
            invokedAgent := true }

/-! ## Login retry loop

Source: src/src/main.js lines 49-79 and src/unnamed/part_001 lines 43-73.
Both scripts run `for (attempt = 1; attempt <= maxLoginAttempts &&
!loginSuccess; attempt++)` with `maxLoginAttempts = 2`, catching each
thrown login error, sleeping 3000 ms between attempts, and rethrowing
the caught error on the last attempt. -/

/-- Result of the login loop: how many times `hybridLogin` was invoked,
the inter-attempt sleeps performed (in ms, in order), and the outcome
(`.ok b` is the final `loginSuccess` when the loop exits normally,
`.error e` is the rethrown last login error). -/
structure LoginLoopResult where
  attemptsMade : Nat
  sleeps : List Nat
  outcome : Except String Bool
deriving Repr

/-- Embedding of the login retry loop body, structurally recursive on the
number of attempts still permitted (`remaining = maxAttempts - attempt + 1`,
so the loop guard `attempt <= maxAttempts` is `remaining > 0` and the retry
guard `attempt < maxAttempts` is `remaining > 1`).  `invoke a` is the
outcome of `carrier.hybridLogin()` on attempt number `a` (`.ok b` a normal
return of `b`, `.error e` a thrown error); `delayMs` is the literal 3000 of
the source. -/
def loginLoopFrom (invoke : Nat → Except String Bool) (delayMs : Nat) :
    Nat → Nat → LoginLoopResult
  | 0, _ => ⟨0, [], .ok false⟩
  | remaining + 1, attempt =>
      match invoke attempt with
      | .ok true => ⟨1, [], .ok true⟩
      | .ok false =>
          let r := loginLoopFrom invoke delayMs remaining (attempt + 1)
          ⟨r.attemptsMade + 1, r.sleeps, r.outcome⟩
      | .error e =>
          match remaining with
          | 0 => ⟨1, [], .error e⟩
          | _ + 1 =>
              let r := loginLoopFrom invoke delayMs remaining (attempt + 1)
              ⟨r.attemptsMade + 1, delayMs :: r.sleeps, r.outcome⟩

/-- The login retry loop of src/src/main.js lines 52-79 and part_001
lines 46-69, started at attempt 1 with `maxAttempts` attempts allowed. -/
def loginLoop (invoke : Nat → Except String Bool) (maxAttempts delayMs : Nat) :
    LoginLoopResult :=
  loginLoopFrom invoke delayMs maxAttempts 1

/-! ## JSON documents

The pipeline writes JSON result documents to maersk-rates.json; a small
JSON value type captures their shape. -/

/-- JSON values, enough for the documents the pipeline builds. -/
inductive JVal where
  | jnull
  | jbool (b : Bool)
  | jnum (n : Int)
  | jstr (s : String)
  | jarr (xs : List JVal)
  | jobj (fields : List (String × JVal))

/-- Field lookup in an association list of JSON object fields. -/
def lookupField : List (String × JVal) → String → Option JVal
  | [], _ => none
  | (k, v) :: rest, key => if k = key then some v else lookupField rest key

/-- Field lookup on a JSON value: `some` only for objects that bind the key. -/
def JVal.getField : JVal → String → Option JVal
  | .jobj fields, key => lookupField fields key
  | _, _ => none

/-- Boolean success test for an embedded fallible operation. -/
def isOkE {α : Type} : Except String α → Bool
  | .ok _ => true
  | .error _ => false

/-! ## Carrier rate extraction

Source: src/unnamed/part_003 `extractRates` (lines 458-534): an agent
analysis call, then a structured `page.extract`, then the `jsonResult`
object literal of lines 499-511; on a thrown error an `errorResult` is
only logged to the console and the error is rethrown. -/

/-- Shape of the `page.extract` schema in part_003 `extractRates`: the
fields the caller reads, with the remaining schema content kept as JSON. -/
structure StructuredRates where
  rates : JVal
  totalOptionsFound : Int
  hasRateInformation : Bool
  pageType : String
  additionalServices : JVal
  specialOffers : JVal

/-- The `rateData` object embedded in the result document: the structured
extraction as JSON (part_003 line 505 stores `structuredRates` directly). -/
def StructuredRates.toJson (s : StructuredRates) : JVal :=
  .jobj [("rates", s.rates),
         ("totalOptionsFound", .jnum s.totalOptionsFound),
         ("hasRateInformation", .jbool s.hasRateInformation),
         ("pageType", .jstr s.pageType),
         ("additionalServices", s.additionalServices),
         ("specialOffers", s.specialOffers)]

/-- Data of a successful `extractRates` call: the agent analysis message,
the structured extraction, and the `new Date().toISOString()` value. -/
structure RateResults where
  claudeAnalysis : String
  structured : StructuredRates
  nowIso : String

/-- The `jsonResult` object literal of part_003 lines 500-511. -/
def RateResults.toJson (r : RateResults) : JVal :=
  .jobj [("success", .jbool true),
         ("extractionTimestamp", .jstr r.nowIso),
         ("source", .jstr "Maersk.com"),
         ("claudeAnalysis", .jstr r.claudeAnalysis),
         ("rateData", r.structured.toJson),
         ("summary", .jobj
           [("totalOptions", .jnum r.structured.totalOptionsFound),
            ("hasRates", .jbool r.structured.hasRateInformation),
            ("pageAnalyzed", .jstr r.structured.pageType)])]

/-- Embedding of part_003 `extractRates`: both external calls must succeed;
a thrown error propagates (the console-logged errorResult is not written
to the result file). -/
def extractRates (rateAnalysis : Except String String)
    (structured : Except String StructuredRates) (nowIso : String) :
    Except String RateResults :=
  match rateAnalysis with
  | .error e => .error e
  | .ok msg =>
      match structured with
      | .error e => .error e
      | .ok s => .ok { claudeAnalysis := msg, structured := s, nowIso := nowIso }

/-! ## Extraction pipeline

Source: src/unnamed/part_001 `extractMaerskRates`: environment checks,
carrier construction, browser start, the login retry loop, navigation,
page analysis, form filling, submission, rate extraction, the two
writeFile calls, the catch block, and the finally block that closes the
carrier. -/

/-- Result of part_003 `verifyBookingPage` page extraction. -/
structure PageAnalysis where
  hasBookingForm : Bool
  hasLocationFields : Bool
  hasContinueButton : Bool
  elementsFound : List String
  pageType : String
  formReadyForInput : Bool

/-- The fields of the part_003 `fillBookingForm` return value that
part_001 reads. -/
structure FormResult where
  success : Bool
  canContinue : Bool

/-- Environment of one `extractMaerskRates` run: the configuration checks
and the outcome each external operation would have if reached.
`login a` is `carrier.hybridLogin()` on attempt `a`; `submit` is the
`success` field of `submitBookingForm` (or its thrown error). -/
structure ExtractEnv where
  hasUsername : Bool
  hasPassword : Bool
  hasApiKey : Bool
  initBrowser : Except String Unit
  login : Nat → Except String Bool
  urlHasBook : Bool
  gotoBook : Except String Unit
  pageAnalysis : Except String PageAnalysis
  formFill : Except String FormResult
  submit : Except String Bool
  rateAnalysis : Except String String
  structured : Except String StructuredRates
  nowIso : String
  closeResult : Except String Unit

/-- The `errorResult` object literal of part_001 lines 164-172, written to
maersk-rates.json on the failure path. -/
def errorDoc (errMsg nowIso : String) : JVal :=
  .jobj [("success", .jbool false),
         ("error", .jstr errMsg),
         ("extractionTimestamp", .jstr nowIso),
         ("summary", .jobj
           [("totalOptions", .jnum 0),
            ("pageAnalyzed", .jstr "Error occurred")])]

/-- The object returned by `extractMaerskRates` on success (part_001
lines 128-137). -/
def successValue (r : RateResults) : JVal :=
  .jobj [("success", .jbool true),
         ("summary", .jobj
           [("totalOptions", .jnum r.structured.totalOptionsFound),
            ("pageAnalyzed", .jstr r.structured.pageType)]),
         ("rateData", r.structured.toJson),
         ("claudeAnalysis", .jstr r.claudeAnalysis),
         ("extractionTimestamp", .jstr r.nowIso)]

/-- Body of the try block of `extractMaerskRates`, from the environment
checks up to the success return, as the value it returns or throws. -/
def extractBody (env : ExtractEnv) : Except String RateResults :=
  if ¬ (env.hasUsername ∧ env.hasPassword) then
    .error "Missing MAERSK_USERNAME or MAERSK_PASSWORD in environment variables"
  else if ¬ env.hasApiKey then
    .error "Missing ANTHROPIC_API_KEY in environment variables"
  else
    match env.initBrowser with
    | .error e => .error e
    | .ok _ =>
        match (loginLoop env.login 2 3000).outcome with
        | .error e => .error e
        | .ok false => .error "All Claude login attempts failed"
        | .ok true =>
            match (if env.urlHasBook then .ok () else env.gotoBook :
                Except String Unit) with
            | .error e => .error e
            | .ok _ =>
                match env.pageAnalysis with
                | .error e => .error e
                | .ok pa =>
                    if pa.hasBookingForm ∧ pa.hasLocationFields then
                      match env.formFill with
                      | .error e => .error e
                      | .ok fr =>
                          if fr.canContinue then
                            match env.submit with
                            | .error e => .error e
                            | .ok true =>
                                extractRates env.rateAnalysis env.structured
                                  env.nowIso
                            | .ok false => .error "Form submission failed"
                          else .error
                            "No continue button found - form may need manual review"
                    else .error "Expected booking form elements not found"

/-- Whether the line `carrier = new MaerskCarrier()` is reached and
succeeds: every earlier statement of the try block is a pure check of
these three flags, and the part_003 constructor re-checks the same
environment variables. -/
def carrierConstructed (env : ExtractEnv) : Bool :=
  env.hasUsername && env.hasPassword && env.hasApiKey

/-- Observable outcome of one `extractMaerskRates` run: its return value
or thrown error, the documents written to maersk-rates.json in order, how
many times `carrier.close()` ran, and whether a close error was caught
and logged by the cleanup handler of part_001 lines 183-185. -/
structure RunOutcome where
  result : Except String JVal
  written : List JVal
  closeCalls : Nat
  closeErrorLogged : Bool

/-- Embedding of `extractMaerskRates` (part_001): the catch block writes
the error document and rethrows; the finally block closes the carrier
when it was constructed, catching any close error and only logging it. -/
def runExtract (env : ExtractEnv) : RunOutcome :=
  let closes := if carrierConstructed env then 1 else 0
  let closeLogged := carrierConstructed env && !isOkE env.closeResult
  match extractBody env with
  | .ok r =>
      { result := .ok (successValue r),
        written := [r.toJson],
        closeCalls := closes,
        closeErrorLogged := closeLogged }
  | .error e =>
      { result := .error e,
        written := [errorDoc e env.nowIso],
        closeCalls := closes,
        closeErrorLogged := closeLogged }

/-- Spec-side predicate: every stage of the part_001 pipeline succeeds
(configuration present, browser starts, some login attempt returns true,
the booking page is reached and analyzed with the expected form fields,
the form is filled with a continue button, submission reports success,
and both rate-extraction calls succeed). -/
def pipelineSucceeds (env : ExtractEnv) : Bool :=
  carrierConstructed env &&
  isOkE env.initBrowser &&
  (match (loginLoop env.login 2 3000).outcome with
   | .ok true => true
   | _ => false) &&
  (env.urlHasBook || isOkE env.gotoBook) &&
  (match env.pageAnalysis with
   | .ok pa => pa.hasBookingForm && pa.hasLocationFields
   | .error _ => false) &&
  (match env.formFill with
   | .ok fr => fr.canContinue
   | .error _ => false) &&
  (match env.submit with
   | .ok b => b
   | .error _ => false) &&
  isOkE env.rateAnalysis &&
  isOkE env.structured

/-! ## Entry points

Source: src/unnamed/part_000 `main` (the Claude-extraction entry point)
and src/src/main.js `main` (the OpenAI Computer Use entry point). -/

/-- Embedding of the part_000 entry point: `process.exit(1)` when a
required environment variable is missing or when `extractMaerskRates`
throws, implicit exit code 0 otherwise. -/
def mainPart000Exit (env : ExtractEnv) : Nat :=
  if ¬ (env.hasUsername ∧ env.hasPassword ∧ env.hasApiKey) then 1
  else
    match (runExtract env).result with
    | .ok _ => 0
    | .error _ => 1

/-- Environment of one src/src/main.js run (with the part_002 carrier).
`extractR` is the outcome of `carrier.extractRates()`; a failure there is
caught at lines 162-165 and only logged. -/
structure MainJsEnv where
  hasCreds : Bool
  hasOpenAIKey : Bool
  initBrowser : Except String Unit
  login : Nat → Except String Bool
  urlHasBook : Bool
  gotoBook : Except String Unit
  pageAnalysis : Except String PageAnalysis
  formFill : Except String FormResult
  submit : Except String Bool
  extractR : Except String Unit
  closeResult : Except String Unit

/-- Observable outcome of a src/src/main.js run: the process exit code
and whether `carrier.extractRates()` resolved successfully. -/
structure MainJsOutcome where
  exitCode : Nat
  ratesExtracted : Bool
deriving DecidableEq, Repr

/-- Embedding of src/src/main.js `main`.  Exit 1 on missing
configuration and on errors reaching the top-level catch (browser init,
login-loop rethrow, booking-page navigation, page analysis, final
close); `loginSuccess` false after the loop returns normally (exit 0);
form filling, submission, and rate-extraction errors are caught by the
inner catch blocks of lines 120-179 and only logged. -/
def mainJsRun (env : MainJsEnv) : MainJsOutcome :=
  if ¬ env.hasCreds then ⟨1, false⟩
  else if ¬ env.hasOpenAIKey then ⟨1, false⟩
  else
    match env.initBrowser with
    | .error _ => ⟨1, false⟩
    | .ok _ =>
        match (loginLoop env.login 2 3000).outcome with
        | .error _ => ⟨1, false⟩
        | .ok false => ⟨0, false⟩
        | .ok true =>
            match (if env.urlHasBook then .ok () else env.gotoBook :
                Except String Unit) with
            | .error _ => ⟨1, false⟩
            | .ok _ =>
                match env.pageAnalysis with
                | .error _ => ⟨1, false⟩
                | .ok pa =>
                    let extracted :=
                      if pa.hasBookingForm && pa.hasLocationFields then
                        match env.formFill with
                        | .error _ => false
                        | .ok fr =>
                            if fr.canContinue then
                              match env.submit with
                              | .error _ => false
                              | .ok true => isOkE env.extractR
                              | .ok false => false
                            else false
                      else false
                    match env.closeResult with
                    | .error _ => ⟨1, extracted⟩
                    | .ok _ => ⟨0, extracted⟩

/-- Spec-side predicate: a src/src/main.js run in which every pipeline
stage through rate extraction succeeds. -/
def mainJsFullSuccess (env : MainJsEnv) : Bool :=
  env.hasCreds && env.hasOpenAIKey &&
  isOkE env.initBrowser &&
  (match (loginLoop env.login 2 3000).outcome with
   | .ok true => true
   | _ => false) &&
  (env.urlHasBook || isOkE env.gotoBook) &&
  (match env.pageAnalysis with
   | .ok pa => pa.hasBookingForm && pa.hasLocationFields
   | .error _ => false) &&
  (match env.formFill with
   | .ok fr => fr.canContinue
   | .error _ => false) &&
  (match env.submit with
   | .ok b => b
   | .error _ => false) &&
  isOkE env.extractR

/-! ## Booking data model

Source: src/src/models/booking.js.  JavaScript truthiness of the string
fields is modelled with the empty string standing for an absent or empty
value, and optional object fields with `Option`. -/

/-- The Location class: city, country, isPort. -/
structure BLocation where
  city : String
  country : String
  isPort : Bool

/-- The Container class. -/
structure BContainer where
  containerType : String
  size : String
  quantity : Int
  weightKg : Int

/-- The InlandTransport class. -/
structure BInlandTransport where
  transportType : String
  isPickup : Bool

/-- The BookingDetails class.  `readyDate` is a Date modelled as epoch
milliseconds; a Date object is always truthy, so only presence matters. -/
structure BookingDetails where
  origin : Option BLocation
  destination : Option BLocation
  originTransport : BInlandTransport
  destinationTransport : BInlandTransport
  containers : List BContainer
  commodity : String
  readyDate : Option Int
  requiresTemperatureControl : Bool
  isDangerousCargo : Bool
  isPriceOwner : Bool

/-- JavaScript test `!loc || !loc.city || !loc.country` on an optional
location. -/
def locationMissing : Option BLocation → Bool
  | none => true
  | some l => l.city = "" || l.country = ""

/-- Model of JavaScript String.prototype.trim: drop leading and trailing
whitespace characters. -/
def jsTrim (s : String) : String :=
  ⟨((s.data.dropWhile Char.isWhitespace).reverse.dropWhile
      Char.isWhitespace).reverse⟩

/-- Embedding of `BookingDetails.validate` (booking.js lines 58-82): the
error strings pushed, in order. -/
def BookingDetails.validate (b : BookingDetails) : List String :=
  (if locationMissing b.origin then ["Origin location is required"] else []) ++
  (if locationMissing b.destination then ["Destination location is required"]
   else []) ++
  (if b.containers.length = 0 then ["At least one container is required"]
   else []) ++
  (if b.commodity = "" ∨ jsTrim b.commodity = "" then ["Commodity is required"]
   else []) ++
  (if b.readyDate.isNone then ["Ready date is required"] else [])

/-- Embedding of `createSampleBooking` (booking.js lines 86-120); `now`
is `Date.now()`. -/
def createSampleBooking (now : Int) : BookingDetails :=
  { origin := some { city := "Houston (Texas)", country := "United States",
                     isPort := true },
    destination := some { city := "Iquique", country := "Chile",
                          isPort := true },
    originTransport := { transportType := "SD", isPickup := true },
    destinationTransport := { transportType := "SD", isPickup := false },
    containers := [{ containerType := "DRY", size := "20", quantity := 1,
                     weightKg := 4000 }],
    commodity := "Electronics",
    readyDate := some (now + 7 * 24 * 60 * 60 * 1000),
    requiresTemperatureControl := false,
    isDangerousCargo := false,
    isPriceOwner := true }

/-- The validation guard at the start of part_003 `fillBookingForm`
(lines 205-210): throw when `validate` returns any error. -/
def fillBookingFormGuard (b : BookingDetails) : Except String Unit :=
  let errors := b.validate
  if errors.length > 0 then
    .error ("Booking validation failed: " ++ String.intercalate ", " errors)
  else .ok ()

/-! ## Rate-limit helper lemmas -/

theorem claudeCall_denied_eq (st : RateLimitState) (now : Int)
    (agentExec : AgentOutcome) (fb : String)
    (h : now - st.lastClaudeCall < claudeRateLimit) :
    claudeCallWithRateLimit st now agentExec fb =
      ⟨.ok ⟨fb, true⟩, st, false⟩ := by
  simp [claudeCallWithRateLimit, h]

theorem agentCall_denied_eq (st : RateLimitState) (now : Int)
    (agentRun : AgentRunOutcome) (fb : String)
    (h : now - st.lastClaudeCall < claudeRateLimit) :
    agentCallWithRateLimit st now agentRun fb =
      ⟨.ok ⟨fb, true⟩, st, false⟩ := by
  simp [agentCallWithRateLimit, h]

theorem claudeCall_success_eq (st : RateLimitState) (now : Int)
    (m fb : String) (h : ¬ now - st.lastClaudeCall < claudeRateLimit) :
    claudeCallWithRateLimit st now (.success m) fb =
      ⟨.ok ⟨m, false⟩, ⟨now⟩, true⟩ := by
  simp [claudeCallWithRateLimit, h]

theorem agentCall_success_eq (st : RateLimitState) (now : Int)
    (fb : String) (h : ¬ now - st.lastClaudeCall < claudeRateLimit) :
    agentCallWithRateLimit st now .success fb =
      ⟨.ok ⟨"Agent task completed successfully", false⟩, ⟨now⟩, true⟩ := by
  simp [agentCallWithRateLimit, h]

theorem claudeCall_sigErr_eq (st : RateLimitState) (now : Int)
    (e fb : String) (h : ¬ now - st.lastClaudeCall < claudeRateLimit)
    (hsig : errorHasRateLimitSignature e = true) :
    claudeCallWithRateLimit st now (.failure e) fb =
      ⟨.ok ⟨fb, true⟩, ⟨now + claudeRateLimit⟩, true⟩ := by
  simp [claudeCallWithRateLimit, h, hsig]

theorem agentCall_sigErr_eq (st : RateLimitState) (now : Int)
    (e fb : String) (h : ¬ now - st.lastClaudeCall < claudeRateLimit)
    (hsig : errorHasRateLimitSignature e = true) :
    agentCallWithRateLimit st now (.failure e) fb =
      ⟨.ok ⟨fb, true⟩, ⟨now + claudeRateLimit⟩, true⟩ := by
  simp [agentCallWithRateLimit, h, hsig]

theorem claudeCall_otherErr_eq (st : RateLimitState) (now : Int)
    (e fb : String) (h : ¬ now - st.lastClaudeCall < claudeRateLimit)
    (hsig : errorHasRateLimitSignature e = false) :
    claudeCallWithRateLimit st now (.failure e) fb =
      ⟨.error e, ⟨now⟩, true⟩ := by
  simp [claudeCallWithRateLimit, h, hsig]

theorem agentCall_otherErr_eq (st : RateLimitState) (now : Int)
    (e fb : String) (h : ¬ now - st.lastClaudeCall < claudeRateLimit)
    (hsig : errorHasRateLimitSignature e = false) :
    agentCallWithRateLimit st now (.failure e) fb =
      ⟨.error e, ⟨now⟩, true⟩ := by
  simp [agentCallWithRateLimit, h, hsig]

/-! ## Claim C1 -/

/-- C1: for both resource classes (the part_003 Claude helper and the
part_002 agent helper), a call made when less than claudeRateLimit
(60000 ms) has elapsed since the last recorded invocation timestamp is
denied: the helper returns `{message: fallbackMessage, rateLimited: true}`
and the external agent is not invoked at all. -/
theorem rateLimit_denied_returns_fallback
    (st : RateLimitState) (now : Int) (fb : String)
    (agentExec : AgentOutcome) (agentRun : AgentRunOutcome)
    (h : now - st.lastClaudeCall < claudeRateLimit) :
    claudeRateLimit = 60000 ∧
    (claudeCallWithRateLimit st now agentExec fb).result =
      .ok ⟨fb, true⟩ ∧
    (claudeCallWithRateLimit st now agentExec fb).invokedAgent = false ∧
    (agentCallWithRateLimit st now agentRun fb).result = .ok ⟨fb, true⟩ ∧
    (agentCallWithRateLimit st now agentRun fb).invokedAgent = false := by
  rw [claudeCall_denied_eq st now agentExec fb h,
      agentCall_denied_eq st now agentRun fb h]
  exact ⟨rfl, rfl, rfl, rfl, rfl⟩

/-- Witness for C1 at a concrete denied call. -/
theorem rateLimit_denied_returns_fallback_witness :
    claudeRateLimit = 60000 ∧
    (claudeCallWithRateLimit ⟨0⟩ 59999 (.success "done") "fb").result =
      .ok ⟨"fb", true⟩ ∧
    (claudeCallWithRateLimit ⟨0⟩ 59999 (.success "done") "fb").invokedAgent
      = false ∧
    (agentCallWithRateLimit ⟨0⟩ 59999 .success "fb").result =
      .ok ⟨"fb", true⟩ ∧
    (agentCallWithRateLimit ⟨0⟩ 59999 .success "fb").invokedAgent = false :=
  rateLimit_denied_returns_fallback ⟨0⟩ 59999 "fb" (.success "done") .success
    (by decide)

/-! ## Claim C2 -/

/-- C2: for both resource classes, a call made when at least
claudeRateLimit has elapsed since the last recorded invocation is
allowed (the external agent is invoked), and the helper records the
current timestamp `now` optimistically, so the recorded timestamp is
updated whether or not the external call succeeds: it becomes `now` on
success and on a non-rate-limit error, and `now + claudeRateLimit` on a
rate-limit-signature error. -/
theorem rateLimit_allowed_records_timestamp
    (st : RateLimitState) (now : Int) (fb : String)
    (agentExec : AgentOutcome) (agentRun : AgentRunOutcome)
    (h : claudeRateLimit ≤ now - st.lastClaudeCall) :
    (claudeCallWithRateLimit st now agentExec fb).invokedAgent = true ∧
    ((claudeCallWithRateLimit st now agentExec fb).state.lastClaudeCall = now ∨
     (claudeCallWithRateLimit st now agentExec fb).state.lastClaudeCall =
       now + claudeRateLimit) ∧
    (∀ m, agentExec = .success m →
      claudeCallWithRateLimit st now agentExec fb =
        ⟨.ok ⟨m, false⟩, ⟨now⟩, true⟩) ∧
    (∀ e, agentExec = .failure e → errorHasRateLimitSignature e = false →
      (claudeCallWithRateLimit st now agentExec fb).state.lastClaudeCall
        = now) ∧
    (agentCallWithRateLimit st now agentRun fb).invokedAgent = true ∧
    ((agentCallWithRateLimit st now agentRun fb).state.lastClaudeCall = now ∨
     (agentCallWithRateLimit st now agentRun fb).state.lastClaudeCall =
       now + claudeRateLimit) ∧
    (agentRun = .success →
      agentCallWithRateLimit st now agentRun fb =
        ⟨.ok ⟨"Agent task completed successfully", false⟩, ⟨now⟩, true⟩) ∧
    (∀ e, agentRun = .failure e → errorHasRateLimitSignature e = false →
      (agentCallWithRateLimit st now agentRun fb).state.lastClaudeCall
        = now) := by
  have hn : ¬ now - st.lastClaudeCall < claudeRateLimit := not_lt.mpr h
  refine ⟨?_, ?_, ?_, ?_, ?_, ?_, ?_, ?_⟩
  · cases agentExec with
    | success m => rw [claudeCall_success_eq st now m fb hn]
    | failure e =>
        cases hsig : errorHasRateLimitSignature e with
        | true => rw [claudeCall_sigErr_eq st now e fb hn hsig]
        | false => rw [claudeCall_otherErr_eq st now e fb hn hsig]
  · cases agentExec with
    | success m => rw [claudeCall_success_eq st now m fb hn]; left; rfl
    | failure e =>
        cases hsig : errorHasRateLimitSignature e with
        | true => rw [claudeCall_sigErr_eq st now e fb hn hsig]; right; rfl
        | false => rw [claudeCall_otherErr_eq st now e fb hn hsig]; left; rfl
  · intro m hm; subst hm; exact claudeCall_success_eq st now m fb hn
  · intro e he hsig; subst he
    rw [claudeCall_otherErr_eq st now e fb hn hsig]
  · cases agentRun with
    | success => rw [agentCall_success_eq st now fb hn]
    | failure e =>
        cases hsig : errorHasRateLimitSignature e with
        | true => rw [agentCall_sigErr_eq st now e fb hn hsig]
        | false => rw [agentCall_otherErr_eq st now e fb hn hsig]
  · cases agentRun with
    | success => rw [agentCall_success_eq st now fb hn]; left; rfl
    | failure e =>
        cases hsig : errorHasRateLimitSignature e with
        | true => rw [agentCall_sigErr_eq st now e fb hn hsig]; right; rfl
        | false => rw [agentCall_otherErr_eq st now e fb hn hsig]; left; rfl
  · intro hr; subst hr; exact agentCall_success_eq st now fb hn
  · intro e he hsig; subst he
    rw [agentCall_otherErr_eq st now e fb hn hsig]

/-- Witness for C2 at a concrete allowed call (exactly 60000 ms elapsed). -/
theorem rateLimit_allowed_records_timestamp_witness :
    claudeCallWithRateLimit ⟨0⟩ 60000 (.success "done") "fb" =
      ⟨.ok ⟨"done", false⟩, ⟨60000⟩, true⟩ ∧
    agentCallWithRateLimit ⟨0⟩ 60000 .success "fb" =
      ⟨.ok ⟨"Agent task completed successfully", false⟩, ⟨60000⟩, true⟩ := by
  have h := rateLimit_allowed_records_timestamp ⟨0⟩ 60000 "fb"
    (.success "done") .success (by decide)
  exact ⟨h.2.2.1 "done" rfl, h.2.2.2.2.2.2.1 rfl⟩

/-! ## Claim C3 -/

/-- C3: for both resource classes, when the external call made after a
locally-approved check fails with a rate-limit-signature error (message
containing 429 or rate_limit), the helper sets the recorded timestamp to
`now + claudeRateLimit`, returns `{message: fallbackMessage, rateLimited:
true}` instead of throwing, and any subsequent call within an extra
claudeRateLimit beyond the usual interval (elapsed time below
2 * claudeRateLimit) is denied without invoking the agent; errors without
a rate-limit signature are rethrown. -/
theorem rateLimit_signature_error_backoff
    (st : RateLimitState) (now : Int) (e fb : String)
    (h : claudeRateLimit ≤ now - st.lastClaudeCall)
    (hsig : errorHasRateLimitSignature e = true) :
    claudeCallWithRateLimit st now (.failure e) fb =
      ⟨.ok ⟨fb, true⟩, ⟨now + claudeRateLimit⟩, true⟩ ∧
    (∀ (t : Int) (a2 : AgentOutcome) (fb2 : String),
      t - now < 2 * claudeRateLimit →
      claudeCallWithRateLimit ⟨now + claudeRateLimit⟩ t a2 fb2 =
        ⟨.ok ⟨fb2, true⟩, ⟨now + claudeRateLimit⟩, false⟩) ∧
    (∀ e2, errorHasRateLimitSignature e2 = false →
      claudeCallWithRateLimit st now (.failure e2) fb =
        ⟨.error e2, ⟨now⟩, true⟩) ∧
    agentCallWithRateLimit st now (.failure e) fb =
      ⟨.ok ⟨fb, true⟩, ⟨now + claudeRateLimit⟩, true⟩ ∧
    (∀ (t : Int) (a2 : AgentRunOutcome) (fb2 : String),
      t - now < 2 * claudeRateLimit →
      agentCallWithRateLimit ⟨now + claudeRateLimit⟩ t a2 fb2 =
        ⟨.ok ⟨fb2, true⟩, ⟨now + claudeRateLimit⟩, false⟩) ∧
    (∀ e2, errorHasRateLimitSignature e2 = false →
      agentCallWithRateLimit st now (.failure e2) fb =
        ⟨.error e2, ⟨now⟩, true⟩) := by
  have hn : ¬ now - st.lastClaudeCall < claudeRateLimit := not_lt.mpr h
  refine ⟨claudeCall_sigErr_eq st now e fb hn hsig, ?_,
      fun e2 hs2 => claudeCall_otherErr_eq st now e2 fb hn hs2,
      agentCall_sigErr_eq st now e fb hn hsig, ?_,
      fun e2 hs2 => agentCall_otherErr_eq st now e2 fb hn hs2⟩
  · intro t a2 fb2 ht
    exact claudeCall_denied_eq ⟨now + claudeRateLimit⟩ t a2 fb2
      (show t - (now + claudeRateLimit) < claudeRateLimit by omega)
  · intro t a2 fb2 ht
    exact agentCall_denied_eq ⟨now + claudeRateLimit⟩ t a2 fb2
      (show t - (now + claudeRateLimit) < claudeRateLimit by omega)

/-- Witness for C3: a 429 error at time 60000 after a last call at 0;
the follow-up probe at time 179999 (elapsed 119999 since the failure
time) is still denied. -/
theorem rateLimit_signature_error_backoff_witness :
    claudeCallWithRateLimit ⟨0⟩ 60000 (.failure "429 too many requests")
        "fb" = ⟨.ok ⟨"fb", true⟩, ⟨120000⟩, true⟩ ∧
    claudeCallWithRateLimit ⟨120000⟩ 179999 (.success "late") "fb2" =
      ⟨.ok ⟨"fb2", true⟩, ⟨120000⟩, false⟩ ∧
    claudeCallWithRateLimit ⟨0⟩ 60000 (.failure "boom") "fb" =
      ⟨.error "boom", ⟨60000⟩, true⟩ ∧
    agentCallWithRateLimit ⟨0⟩ 60000 (.failure "provider rate_limit hit")
        "fb" = ⟨.ok ⟨"fb", true⟩, ⟨120000⟩, true⟩ := by
  have h := rateLimit_signature_error_backoff ⟨0⟩ 60000
    "429 too many requests" "fb" (by decide) (by decide)
  have h2 := rateLimit_signature_error_backoff ⟨0⟩ 60000
    "provider rate_limit hit" "fb" (by decide) (by decide)
  exact ⟨h.1, h.2.1 179999 (.success "late") "fb2" (by decide),
    h.2.2.1 "boom" (by decide), h2.2.2.2.1⟩

/-! ## Claim C9 -/

/-- C9: for both resource classes, a denied call leaves the rate-limit
state unchanged — `lastClaudeCall` keeps its previous value — and the
external agent is not invoked, so a denied call never pushes the next
allowed time further out. -/
theorem rateLimit_denied_frame
    (st : RateLimitState) (now : Int) (fb : String)
    (agentExec : AgentOutcome) (agentRun : AgentRunOutcome)
    (h : now - st.lastClaudeCall < claudeRateLimit) :
    (claudeCallWithRateLimit st now agentExec fb).state = st ∧
    (claudeCallWithRateLimit st now agentExec fb).invokedAgent = false ∧
    (agentCallWithRateLimit st now agentRun fb).state = st ∧
    (agentCallWithRateLimit st now agentRun fb).invokedAgent = false := by
  rw [claudeCall_denied_eq st now agentExec fb h,
      agentCall_denied_eq st now agentRun fb h]
  exact ⟨rfl, rfl, rfl, rfl⟩

/-- Witness for C9 at a concrete denied call. -/
theorem rateLimit_denied_frame_witness :
    (claudeCallWithRateLimit ⟨5000⟩ 30000 (.failure "429") "fb").state =
      (⟨5000⟩ : RateLimitState) ∧
    (claudeCallWithRateLimit ⟨5000⟩ 30000 (.failure "429") "fb").invokedAgent
      = false ∧
    (agentCallWithRateLimit ⟨5000⟩ 30000 (.failure "429") "fb").state =
      (⟨5000⟩ : RateLimitState) ∧
    (agentCallWithRateLimit ⟨5000⟩ 30000 (.failure "429") "fb").invokedAgent
      = false :=
  rateLimit_denied_frame ⟨5000⟩ 30000 "fb" (.failure "429") (.failure "429")
    (by decide)

/-! ## Login-loop helper lemmas -/

theorem loginLoopFrom_allFail (invoke : Nat → Except String Bool)
    (errs : Nat → String) (hinv : ∀ i, invoke i = .error (errs i))
    (d : Nat) :
    ∀ rem a, loginLoopFrom invoke d (rem + 1) a =
      ⟨rem + 1, List.replicate rem d, .error (errs (a + rem))⟩ := by
  intro rem
  induction rem with
  | zero => intro a; simp [loginLoopFrom, hinv a]
  | succ n ih =>
      intro a
      rw [show a + (n + 1) = (a + 1) + n by omega, loginLoopFrom.eq_2,
          hinv a, ih (a + 1), List.replicate_succ]

/-! ## Claim C4 -/

/-- C4: for a retry loop with maxAttempts = N (at least 1) whose invoked
login operation throws a transient error on every attempt, the loop makes
exactly N attempts, sleeps the fixed configured delay between each pair of
consecutive attempts (N - 1 equal sleeps — linear, not exponential), and
terminates by rethrowing the last error.  The source loops (src/src/main.js
lines 52-79, part_001 lines 46-69) instantiate N = 2 and delay 3000 ms. -/
theorem login_retry_exhaustion (invoke : Nat → Except String Bool)
    (errs : Nat → String) (N d : Nat) (hN : 1 ≤ N)
    (hinv : ∀ i, invoke i = .error (errs i)) :
    loginLoop invoke N d =
      ⟨N, List.replicate (N - 1) d, .error (errs N)⟩ := by
  obtain ⟨k, rfl⟩ : ∃ k, N = k + 1 := ⟨N - 1, by omega⟩
  have h1 : k + 1 - 1 = k := by omega
  have h2 : 1 + k = k + 1 := by omega
  rw [loginLoop, loginLoopFrom_allFail invoke errs hinv d k 1, h1, h2]

/-- Witness for C4 with the source configuration N = 2, delay 3000 ms. -/
theorem login_retry_exhaustion_witness :
    loginLoop (fun _ => .error "transient failure") 2 3000 =
      ⟨2, List.replicate 1 3000, .error "transient failure"⟩ :=
  login_retry_exhaustion (fun _ => .error "transient failure")
    (fun _ => "transient failure") 2 3000 (by decide) (fun _ => rfl)

/-! ## Concrete pipeline environments -/

/-- A concrete structured-rates extraction result. -/
def sampleStructured : StructuredRates :=
  { rates := .jarr [], totalOptionsFound := 1, hasRateInformation := true,
    pageType := "Maersk Rates Page", additionalServices := .jarr [],
    specialOffers := .jarr [] }

/-- A concrete booking-page analysis with all form elements present. -/
def samplePageAnalysis : PageAnalysis :=
  { hasBookingForm := true, hasLocationFields := true,
    hasContinueButton := true,
    elementsFound := ["origin", "destination", "commodity"],
    pageType := "Maersk Booking Form", formReadyForInput := true }

/-- A run in which every external operation succeeds. -/
def successEnv : ExtractEnv :=
  { hasUsername := true, hasPassword := true, hasApiKey := true,
    initBrowser := .ok (), login := fun _ => .ok true,
    urlHasBook := true, gotoBook := .ok (),
    pageAnalysis := .ok samplePageAnalysis,
    formFill := .ok ⟨true, true⟩, submit := .ok true,
    rateAnalysis := .ok "rates analyzed", structured := .ok sampleStructured,
    nowIso := "2025-01-01T00:00:00.000Z", closeResult := .ok () }

/-- A run in which every login attempt throws the error message boom. -/
def loginFailEnv : ExtractEnv :=
  { successEnv with login := fun _ => .error "boom" }

/-- A run with the MAERSK_USERNAME environment variable missing. -/
def missingCredsEnv : ExtractEnv :=
  { successEnv with hasUsername := false }

/-! ## Claim C5 -/

/-- C5 counterexample: in a run where both login attempts throw the error
boom, the error that propagates out of `extractMaerskRates` past attempt
exhaustion is the bare underlying error, unchanged — its message contains
neither an attempt count, nor the digit 2, nor any action identifier such
as login, so it is not wrapped with the context the claim requires. -/
theorem retry_error_not_wrapped_cex :
    (runExtract loginFailEnv).result = .error "boom" ∧
    jsIncludes "boom" "2" = false ∧
    jsIncludes "boom" "attempt" = false ∧
    jsIncludes "boom" "login" = false :=
  ⟨rfl, by decide, by decide, by decide⟩

/-- C5 amended: when every login attempt throws, the error that propagates
past attempt exhaustion is the last underlying error unchanged (the action
identifier and attempt count appear only in log output, never on the
thrown error), and the failure-path result document wraps that same bare
message. -/
theorem retry_exhaustion_propagates_bare_error
    (env : ExtractEnv) (errs : Nat → String)
    (hu : env.hasUsername = true) (hp : env.hasPassword = true)
    (hk : env.hasApiKey = true) (hb : env.initBrowser = .ok ())
    (hl : ∀ i, env.login i = .error (errs i)) :
    (runExtract env).result = .error (errs 2) ∧
    (runExtract env).written = [errorDoc (errs 2) env.nowIso] := by
  have hloop : loginLoop env.login 2 3000 =
      ⟨2, List.replicate 1 3000, .error (errs 2)⟩ := by
    rw [loginLoop, loginLoopFrom_allFail env.login errs hl 3000 1 1]
  have hbody : extractBody env = .error (errs 2) := by
    unfold extractBody
    simp [hu, hp, hk, hb, hloop]
  simp [runExtract, hbody]

/-- Witness for the amended C5 at the concrete always-failing login run. -/
theorem retry_exhaustion_propagates_bare_error_witness :
    (runExtract loginFailEnv).result = .error "boom" ∧
    (runExtract loginFailEnv).written =
      [errorDoc "boom" "2025-01-01T00:00:00.000Z"] :=
  retry_exhaustion_propagates_bare_error loginFailEnv (fun _ => "boom")
    rfl rfl rfl rfl (fun _ => rfl)

/-! ## Claim C6 -/

/-- C6: whenever the carrier is constructed, every run of
`extractMaerskRates` — success, stage failure, or any other escaping
error — executes `carrier.close()` exactly once, and a close error never
changes the reported outcome: the result and the written documents are
the same for every close outcome (the close error is only logged). -/
theorem pipeline_teardown_exactly_once
    (env : ExtractEnv) (h : carrierConstructed env = true) :
    (runExtract env).closeCalls = 1 ∧
    (∀ c : Except String Unit,
      (runExtract { env with closeResult := c }).result =
        (runExtract env).result ∧
      (runExtract { env with closeResult := c }).written =
        (runExtract env).written ∧
      (runExtract { env with closeResult := c }).closeCalls = 1) := by
  have hbody : ∀ c : Except String Unit,
      extractBody { env with closeResult := c } = extractBody env :=
    fun _ => rfl
  have hcc : ∀ c : Except String Unit,
      carrierConstructed { env with closeResult := c } =
        carrierConstructed env :=
    fun _ => rfl
  cases hb : extractBody env with
  | ok r =>
      refine ⟨by simp [runExtract, hb, h], fun c => ?_⟩
      refine ⟨?_, ?_, ?_⟩ <;> simp [runExtract, hbody c, hcc c, hb, h]
  | error e =>
      refine ⟨by simp [runExtract, hb, h], fun c => ?_⟩
      refine ⟨?_, ?_, ?_⟩ <;> simp [runExtract, hbody c, hcc c, hb, h]

/-- Witness for C6: the all-success run closes once, and a throwing
teardown leaves the reported result unchanged. -/
theorem pipeline_teardown_exactly_once_witness :
    (runExtract successEnv).closeCalls = 1 ∧
    (runExtract { successEnv with closeResult := .error "close failed" }).result
      = (runExtract successEnv).result := by
  have h := pipeline_teardown_exactly_once successEnv rfl
  exact ⟨h.1, (h.2 (.error "close failed")).1⟩

/-! ## Claim C7 -/

/-- C7: every JSON document the pipeline writes to maersk-rates.json — on
the success path and on the failure path — has a boolean success field, a
string timestamp field (extractionTimestamp), and a summary object field;
and a document whose success field is false additionally has a string
error field. -/
theorem resultDoc_shape (env : ExtractEnv) (doc : JVal)
    (hdoc : doc ∈ (runExtract env).written) :
    (∃ b, doc.getField "success" = some (.jbool b)) ∧
    (∃ s, doc.getField "extractionTimestamp" = some (.jstr s)) ∧
    (∃ fields, doc.getField "summary" = some (.jobj fields)) ∧
    (doc.getField "success" = some (.jbool false) →
      ∃ s, doc.getField "error" = some (.jstr s)) := by
  cases hb : extractBody env with
  | ok r =>
      have hd : doc = r.toJson := by
        simpa [runExtract, hb] using hdoc
      subst hd
      refine ⟨⟨true, rfl⟩, ⟨r.nowIso, rfl⟩, ⟨_, rfl⟩, fun hfalse => ?_⟩
      have h2 : some (JVal.jbool true) = some (JVal.jbool false) := hfalse
      simp at h2
  | error e =>
      have hd : doc = errorDoc e env.nowIso := by
        simpa [runExtract, hb] using hdoc
      subst hd
      exact ⟨⟨false, rfl⟩, ⟨env.nowIso, rfl⟩, ⟨_, rfl⟩, fun _ => ⟨e, rfl⟩⟩

/-- Witness for C7 at the document written by a run with missing
credentials. -/
theorem resultDoc_shape_witness :
    ∃ b, (errorDoc
        "Missing MAERSK_USERNAME or MAERSK_PASSWORD in environment variables"
        "2025-01-01T00:00:00.000Z").getField "success" =
      some (.jbool b) := by
  have h := resultDoc_shape missingCredsEnv
    (errorDoc
      "Missing MAERSK_USERNAME or MAERSK_PASSWORD in environment variables"
      "2025-01-01T00:00:00.000Z")
    (List.mem_singleton.mpr rfl)
  exact h.1

/-! ## Exit-code lemmas -/

theorem extractBody_isOk (env : ExtractEnv) :
    isOkE (extractBody env) = pipelineSucceeds env := by
  obtain ⟨hu, hp, hk, hib, lg, hurl, hg, hpa, hff, hsub, hra, hst, niso, hcl⟩
    := env
  unfold extractBody pipelineSucceeds carrierConstructed
  cases hu <;> cases hp <;> cases hk <;> try simp [isOkE]
  cases hib with
  | error e => simp [isOkE]
  | ok u =>
      cases hl : (loginLoop lg 2 3000).outcome with
      | error e => simp [isOkE, hl]
      | ok b =>
          cases b with
          | false => simp [isOkE, hl]
          | true =>
              simp only [hl, isOkE, Bool.true_and]
              cases hurl with
              | true =>
                  simp only [Bool.true_or, Bool.true_and, if_true]
                  cases hpa with
                  | error e => simp [isOkE]
                  | ok pa =>
                      cases hbf : pa.hasBookingForm <;>
                        cases hlf : pa.hasLocationFields <;>
                        try simp_all [isOkE]
                      cases hff with
                      | error e => simp [isOkE]
                      | ok fr =>
                          cases hcc : fr.canContinue <;> try simp_all [isOkE]
                          cases hsub with
                          | error e => simp [isOkE]
                          | ok sb =>
                              cases sb <;> try simp [isOkE]
                              unfold extractRates
                              cases hra <;> try simp [isOkE]
                              cases hst <;> simp [isOkE]
              | false =>
                  cases hg with
                  | error e => simp [isOkE]
                  | ok u2 =>
                      simp only [Bool.false_or, isOkE, Bool.true_and]
                      cases hpa with
                      | error e => simp [isOkE]
                      | ok pa =>
                          cases hbf : pa.hasBookingForm <;>
                            cases hlf : pa.hasLocationFields <;>
                            try simp_all [isOkE]
                          cases hff with
                          | error e => simp [isOkE]
                          | ok fr =>
                              cases hcc : fr.canContinue <;>
                                try simp_all [isOkE]
                              cases hsub with
                              | error e => simp [isOkE]
                              | ok sb =>
                                  cases sb <;> try simp [isOkE]
                                  unfold extractRates
                                  cases hra <;> try simp [isOkE]
                                  cases hst <;> simp [isOkE]

/-! ## Claim C8 -/

/-- A src/src/main.js run in which every stage succeeds except
`carrier.extractRates()`, which throws a 429 error. -/
def swallowedRateErrEnv : MainJsEnv :=
  { hasCreds := true, hasOpenAIKey := true, initBrowser := .ok (),
    login := fun _ => .ok true, urlHasBook := true, gotoBook := .ok (),
    pageAnalysis := .ok samplePageAnalysis, formFill := .ok ⟨true, true⟩,
    submit := .ok true, extractR := .error "429 rate limit",
    closeResult := .ok () }

/-- C8 counterexample: in a src/src/main.js run that reaches rate
extraction and fails there, the rate-extraction error is caught at lines
162-165 and only logged, so the process exits with code 0 even though the
pipeline did not fully succeed — refuting exit 0 only on full success. -/
theorem exit_zero_without_success_cex :
    (mainJsRun swallowedRateErrEnv).exitCode = 0 ∧
    (mainJsRun swallowedRateErrEnv).ratesExtracted = false ∧
    mainJsFullSuccess swallowedRateErrEnv = false ∧
    swallowedRateErrEnv.extractR = .error "429 rate limit" :=
  ⟨rfl, rfl, rfl, rfl⟩

/-- C8 amended: the part_000 entry point exits 0 exactly when the whole
extraction pipeline succeeds, and non-zero on missing configuration or
any pipeline error.  src/src/main.js exits non-zero on missing
configuration and exits 0 with rates extracted on a fully successful run,
but errors in form filling, submission, or rate extraction are swallowed
(exit 0 without full success), as the counterexample shows. -/
theorem exit_code_contract (env0 : ExtractEnv) (envJ : MainJsEnv) :
    (mainPart000Exit env0 = 0 ↔ pipelineSucceeds env0 = true) ∧
    ((envJ.hasCreds = false ∨ envJ.hasOpenAIKey = false) →
      (mainJsRun envJ).exitCode = 1) ∧
    (mainJsFullSuccess envJ = true → envJ.closeResult = .ok () →
      (mainJsRun envJ).exitCode = 0 ∧
      (mainJsRun envJ).ratesExtracted = true) := by
  refine ⟨?_, ?_, ?_⟩
  · have hbody := extractBody_isOk env0
    unfold mainPart000Exit runExtract
    by_cases hcfg : env0.hasUsername ∧ env0.hasPassword ∧ env0.hasApiKey
    · cases hb : extractBody env0 with
      | ok r =>
          rw [hb] at hbody
          simp only [isOkE] at hbody
          simp [hcfg, hb, ← hbody]
      | error e =>
          rw [hb] at hbody
          simp only [isOkE] at hbody
          simp [hcfg, hb, ← hbody]
    · have hcc : carrierConstructed env0 = false := by
        unfold carrierConstructed
        cases hu : env0.hasUsername <;> cases hp : env0.hasPassword <;>
          cases hk : env0.hasApiKey <;> simp_all
      simp [hcfg, pipelineSucceeds, hcc]
  · intro hmiss
    unfold mainJsRun
    rcases hmiss with hm | hm <;> simp [hm]
  · intro hfs hcl
    obtain ⟨hc, ho, hib, lg, hurl, hg, hpa, hff, hsub, hex, hclr⟩ := envJ
    simp only [mainJsFullSuccess, Bool.and_eq_true] at hfs
    obtain ⟨⟨⟨⟨⟨⟨⟨⟨hc1, ho1⟩, hib1⟩, hl1⟩, hnav⟩, hpa1⟩, hff1⟩, hs1⟩, hex1⟩
      := hfs
    subst hc1; subst ho1
    simp only at hcl
    subst hcl
    unfold mainJsRun
    cases hib with
    | error e => simp [isOkE] at hib1
    | ok u =>
        cases hl : (loginLoop lg 2 3000).outcome with
        | error e => rw [hl] at hl1; simp at hl1
        | ok b =>
            cases b with
            | false => rw [hl] at hl1; simp at hl1
            | true =>
                cases hurl with
                | true =>
                    cases hpa with
                    | error e => simp at hpa1
                    | ok pa =>
                        cases hff with
                        | error e => simp [isOkE] at hff1
                        | ok fr =>
                            cases hsub with
                            | error e => simp at hs1
                            | ok sb =>
                                cases sb with
                                | false => simp at hs1
                                | true =>
                                    simp at hpa1 hff1
                                    cases hex with
                                    | error e => simp [isOkE] at hex1
                                    | ok u3 =>
                                        refine ⟨?_, ?_⟩ <;>
                                          simp [hl, hpa1, hff1, isOkE]
                | false =>
                    cases hg with
                    | error e => simp [isOkE] at hnav
                    | ok u2 =>
                        cases hpa with
                        | error e => simp at hpa1
                        | ok pa =>
                            cases hff with
                            | error e => simp [isOkE] at hff1
                            | ok fr =>
                                cases hsub with
                                | error e => simp at hs1
                                | ok sb =>
                                    cases sb with
                                    | false => simp at hs1
                                    | true =>
                                        simp at hpa1 hff1
                                        cases hex with
                                        | error e => simp [isOkE] at hex1
                                        | ok u3 =>
                                            refine ⟨?_, ?_⟩ <;>
                                              simp [hl, hpa1, hff1, isOkE]

/-- A src/src/main.js run in which every operation succeeds. -/
def successJsEnv : MainJsEnv :=
  { swallowedRateErrEnv with extractR := .ok () }

/-- Witness for the amended C8 at concrete runs. -/
theorem exit_code_contract_witness :
    mainPart000Exit successEnv = 0 ∧
    (mainJsRun successJsEnv).exitCode = 0 ∧
    (mainJsRun { successJsEnv with hasOpenAIKey := false }).exitCode = 1 := by
  have h := exit_code_contract successEnv successJsEnv
  have h2 := exit_code_contract successEnv
    { successJsEnv with hasOpenAIKey := false }
  exact ⟨(h.1).mpr rfl, (h.2.2 rfl rfl).1, h2.2.1 (Or.inr rfl)⟩

/-! ## Claim C10 -/

theorem locationMissing_false_iff (x : Option BLocation) :
    locationMissing x = false ↔
      ∃ l, x = some l ∧ l.city ≠ "" ∧ l.country ≠ "" := by
  cases x <;> simp [locationMissing]

theorem validate_nil_iff_bool (b : BookingDetails) :
    b.validate = [] ↔
      (locationMissing b.origin = false ∧
       locationMissing b.destination = false ∧
       b.containers ≠ [] ∧
       jsTrim b.commodity ≠ "" ∧
       b.readyDate.isSome = true) := by
  have hcomm : b.commodity = "" → jsTrim b.commodity = "" := by
    intro hc; rw [hc]; rfl
  have hopt : b.readyDate.isNone = false ↔
      b.readyDate.isSome = true := by
    cases b.readyDate <;> simp
  unfold BookingDetails.validate
  simp only [List.append_eq_nil, ite_eq_right_iff, List.cons_ne_nil,
    imp_false, Bool.not_eq_true, List.length_eq_zero]
  constructor
  · intro h
    tauto
  · intro h
    tauto


/-- C10: `BookingDetails.validate` returns the empty error list exactly
when the origin and destination are present with a truthy (non-empty)
city and country, the containers list is non-empty, the commodity is
non-blank after trimming, and readyDate is set; `validate` is a pure
function of the record (the embedding is mutation-free by construction);
consequently `createSampleBooking` always yields a booking whose
validation is empty, so the guard at the start of part_003
`fillBookingForm` does not throw for the sample booking. -/
theorem booking_validation_spec (now : Int) :
    (∀ b : BookingDetails, b.validate = [] ↔
      ((∃ o, b.origin = some o ∧ o.city ≠ "" ∧ o.country ≠ "") ∧
       (∃ l, b.destination = some l ∧ l.city ≠ "" ∧ l.country ≠ "") ∧
       b.containers ≠ [] ∧
       jsTrim b.commodity ≠ "" ∧
       b.readyDate.isSome = true)) ∧
    (createSampleBooking now).validate = [] ∧
    fillBookingFormGuard (createSampleBooking now) = .ok () := by
  refine ⟨fun b => ?_, rfl, rfl⟩
  rw [validate_nil_iff_bool, locationMissing_false_iff,
      locationMissing_false_iff]

end MuvikRate
